import Mathlib

set_option maxRecDepth 10000

/-
  Verification development for the IBM3705_R4 protocol bridge.

  The development shallow-embeds the parts of the program that the
  properties below talk about:

  - the DLSw router message processor proc_DLSw of src/DLSw/DLSw_rt.c
    (flow-control pacing, circuit state machine, reply construction,
    SDLC I-frame injection);
  - the Line Interface Base of src/I3705/i3705_lib.c (proc_LIBrdata,
    proc_LIBtdata, ReadLIB, ShiftLeft, RS232 signal handling);
  - the per-line PCF dispatch of the Type 2 scanner thread of
    src/I3705/i3705_scan_T2.c.

  Buffers are modelled as lists of bytes (Nat, values 0..255); the C
  length counters (DLSwwlen, SDLCwlen, LIBrlen, LIBtlen) are the list
  lengths.  C int variables that may go negative (the pacing counters)
  are Int.  Reads beyond the received data, which in C return leftover
  bytes of the static buffers, are modelled as 0; all properties proved
  below constrain the relevant offsets explicitly.
-/

/-- Byte access into a buffer modelled as a list; out-of-range reads give 0
(the C code would read leftover bytes of a static buffer there). -/
def getB : List Nat → Nat → Nat
  | [], _ => 0
  | b :: _, 0 => b
  | _ :: t, i + 1 => getB t i

/-- Overwrite dst starting at offset off with src, as memcpy(dst+off, src, n)
does when the destination buffer is large enough. -/
def blit (dst : List Nat) (off : Nat) (src : List Nat) : List Nat :=
  dst.take off ++ src ++ dst.drop (off + src.length)

/-- Read n bytes of l starting at offset off, as memcpy(out, l+off, n) does. -/
def extB (l : List Nat) (off n : Nat) : List Nat := (l.drop off).take n

/-
  ==================== DLSw router (src/DLSw/DLSw_rt.c) ====================

  Header offsets used below (the HDR_xxx defines of the source):
    1  = HDR_HLEN    header length
    2  = HDR_MLEN    message length (2 bytes, big endian)
    4  = HDR_RDLC    remote data link correlator (4 bytes)
    8  = HDR_RDPID   remote DLC port id (4 bytes)
    14 = HDR_MTYP    message type
    15 = HDR_FCB     flow control byte
    21 = HDR_SFLG    SSP flags
    38 = HDR_DIR     frame direction
    44 = HDR_ODPID   origin DLC port id (4 bytes)
    48 = HDR_ODLC    origin data link correlator (4 bytes)
  Flow control byte bits: 0x80 = FCB_FCI, 0x40 = FCB_FCA, 0x00 = FCO_RPT.
  Frame directions: 0x01 = DIR_TGT, 0x02 = DIR_ORG.
-/

/-- CONTROL_MSG_Hdr of DLSw_rt.c: the canned 72-byte control header. -/
def CONTROL_MSG_Hdr : List Nat :=
  [0x31, 0x48, 0x00, 0x26, 0x00, 0x00, 0x00, 0x00,
   0x00, 0x00, 0x00, 0x00, 0x00, 0x00, 0x00, 0x00,
   0x42, 0x01, 0x00, 0x00, 0x00, 0x00, 0x00, 0x00,
   0x00, 0x00, 0x00, 0x00, 0x00, 0x00, 0x00, 0x00,
   0x00, 0x00, 0x00, 0x00, 0x00, 0x00, 0x01, 0x00,
   0x00, 0x00, 0x00, 0x00, 0x00, 0x00, 0x00, 0x00,
   0x00, 0x00, 0x00, 0x00, 0x00, 0x00, 0x00, 0x00,
   0x00, 0x00, 0x00, 0x00, 0x00, 0x00, 0x00, 0x00,
   0x00, 0x00, 0x00, 0x00, 0x00, 0x00, 0x00, 0x00]

/-- CAP_EXCHANGE_Rsp of DLSw_rt.c: GDS 1521 capabilities response body. -/
def CAP_EXCHANGE_Rsp : List Nat := [0x00, 0x04, 0x15, 0x21]

/-- XIDFRAME_Rsp of DLSw_rt.c: canned 20-byte XID response body. -/
def XIDFRAME_Rsp : List Nat :=
  [0x14, 0x01, 0x00, 0x00, 0x00, 0x00, 0x00, 0x00,
   0x00, 0x00, 0x00, 0x00, 0x00, 0x00, 0x00, 0x00,
   0x00, 0x00, 0x00, 0x00]

/-- INFOFRAME_Hdr of DLSw_rt.c: the canned 16-byte information header. -/
def INFOFRAME_Hdr : List Nat :=
  [0x31, 0x10, 0x00, 0x00, 0x00, 0x00, 0x00, 0x00,
   0x00, 0x00, 0x00, 0x00, 0x00, 0x00, 0x00, 0x00]

/-- Mutable globals of DLSw_rt.c that proc_DLSw reads or writes.
DLSw circuit states: 0 DISCONNECTED, 1 CIRCUIT_PENDING, 2 CIRCUIT_START,
3 CIRCUIT_RESTART, 4 CIRCUIT_ESTABLISHED, 5 CONNECT_PENDING, 6 CONNECTED.
SDLC_wbuf holds the first SDLCwlen bytes of the C array. -/
structure DLSwState where
  state : Nat
  conlfd : Bool
  flow_control : Bool
  fc_init_window_size : Int
  fc_current_window : Int
  rp_granted_units : Int
  lp_granted_units : Int
  fca_owed : Bool
  fca_due : Bool
  dlc : List Nat
  dlc_pid : List Nat
  seq_Ns : Nat
  seq_Nr : Nat
  SDLC_wbuf : List Nat
  PUtype : Nat
  IDBLK : Nat
  IDNUM : Nat
deriving DecidableEq

/-- Independent Flow Control Message built inside the flow-control block of
proc_DLSw: INFOFRAME_Hdr with type IFCM (0x21), FCB = FCB_FCI wih FCO_RPT,
remote correlator and port id, zero message length. -/
def ifcmMsg (d p : List Nat) : List Nat :=
  ((blit (blit ((INFOFRAME_Hdr.set 14 0x21).set 15 0x80) 4 d) 8 p).set 2 0x00).set 3 0x00

/-- Reply built by the CAP_EXCHANGE GDS 1520 branch of proc_DLSw:
CONTROL_MSG_Hdr with type CAP_EXCHANGE and direction DIR_TGT, followed by
CAP_EXCHANGE_Rsp, with the message length field copied from the response
body (0x00 0x04). -/
def capReply : List Nat :=
  blit (((CONTROL_MSG_Hdr.set 14 0x20).set 38 0x01) ++ CAP_EXCHANGE_Rsp) 2
    (CAP_EXCHANGE_Rsp.take 2)

/-- Flow-control preamble of proc_DLSw (RFC 1795 section 8.7 handling before
the switch): computes fc_byte, marks fca_due on an incoming FCI, and when
flow control is on decrements rp_granted_units, clears fca_owed on an
incoming FCA, and sends an IFCM (returned as the middle component) when
rp_granted_units has fallen to fc_current_window or below and no
acknowledge is outstanding. -/
def fcStep (st : DLSwState) (rbuf : List Nat) : DLSwState × Option (List Nat) × Nat :=
  let fcb : Nat := if getB rbuf 15 &&& 0x80 ≠ 0 then 0x40 else 0x00
  let st1 := if getB rbuf 15 &&& 0x80 ≠ 0 then { st with fca_due := true } else st
  if st1.flow_control then
    let st2 := { st1 with rp_granted_units := st1.rp_granted_units - 1 }
    let st3 :=
      if getB rbuf 15 &&& 0x40 ≠ 0 then
        (if st2.fca_owed then { st2 with fca_owed := false } else st2)
      else st2
    if st3.fca_owed = false then
      if st3.rp_granted_units ≤ st3.fc_current_window then
        ({ st3 with fca_owed := true, rp_granted_units := st3.rp_granted_units + st3.fc_current_window },
         some (ifcmMsg st3.dlc st3.dlc_pid), fcb)
      else (st3, none, fcb)
    else (st3, none, fcb)
  else (st1, none, fcb)

/-- ICANREACH reply of the CANUREACH case: copy of the received header with
type ICANREACH, zero message length, direction DIR_ORG, SSP flag copied,
and the origin correlator and port id moved to the remote fields. -/
def canuReply (rbuf : List Nat) : List Nat :=
  blit (blit ((((((rbuf.take (getB rbuf 1)).set 14 0x04).set 2 0x00).set 3
      0x00).set 38 0x02).set 21 (getB rbuf 21)) 4 (extB rbuf 48 4)) 8 (extB rbuf 44 4)

/-- CONTACT reply of the non-empty XIDFRAME case. -/
def xidContactReply (rbuf : List Nat) (fcb : Nat) : List Nat :=
  blit (blit ((((((rbuf.take (getB rbuf 1)).set 14 0x08).set 2 0x00).set 3
      0x00).set 38 0x02).set 15 fcb) 4 (extB rbuf 48 4)) 8 (extB rbuf 44 4)

/-- Canned XIDFRAME reply of the empty XIDFRAME case: header plus the
20-byte XIDFRAME_Rsp appended at offset 72, message length set to 20. -/
def xidEmptyReply (rbuf : List Nat) (fcb : Nat) : List Nat :=
  ((blit (blit (blit ((((rbuf.take (getB rbuf 1)).set 14 0x07).set 38 0x02).set 15 fcb)
      4 (extB rbuf 48 4)) 8 (extB rbuf 44 4)) 72 XIDFRAME_Rsp).set 2 0x00).set 3 0x14

/-- CONTACT echo reply of the CONTACT case. -/
def contactReply (rbuf : List Nat) (fcb : Nat) : List Nat :=
  blit (blit ((((((rbuf.take (getB rbuf 1)).set 2 0x00).set 3 0x00).set 14
      0x08).set 38 0x02).set 15 fcb) 4 (extB rbuf 48 4)) 8 (extB rbuf 44 4)

/-- REACH_ACK reply of the ICANREACH case. -/
def reachAckReply (rbuf : List Nat) (fcb : Nat) : List Nat :=
  blit (blit ((((((rbuf.take (getB rbuf 1)).set 2 0x00).set 3 0x00).set 14
      0x05).set 38 0x02).set 15 fcb) 4 (extB rbuf 48 4)) 8 (extB rbuf 44 4)

/-- DL_HALTED reply of the HALT_DL case: copy of the received header with
zero message length, type DL_HALTED, direction DIR_ORG, and the origin
correlator and port id moved to the remote fields (the FCB is not set). -/
def haltReply (rbuf : List Nat) : List Nat :=
  blit (blit (((((rbuf.take (getB rbuf 1)).set 2 0x00).set 3 0x00).set 14
      0x0F).set 38 0x02) 4 (extB rbuf 48 4)) 8 (extB rbuf 44 4)

/-- DL_RESTARTED reply of the RESTART_DL case. -/
def restartReply (rbuf : List Nat) : List Nat :=
  blit (blit (((((rbuf.take (getB rbuf 1)).set 2 0x00).set 3 0x00).set 14
      0x11).set 38 0x02) 4 (extB rbuf 48 4)) 8 (extB rbuf 44 4)

/-- Decoded 16-bit big-endian message length field. -/
def msgLen (rbuf : List Nat) : Nat := (getB rbuf 2) <<< 8 + getB rbuf 3

/-- SDLC I-frame block appended to SDLC_wbuf by the INFOFRAME case: the
2-byte length prefix (message length + 6 for link header and trailer),
link header 7E C1, control byte carrying seq_Nr in the high three bits and
seq_Ns in bits 1 to 3 over the Final bit, the payload copied from the
message body, and the literal FCS plus end flag 47 0F 7E. -/
def sdlcIFrame (rbuf : List Nat) (ns nr : Nat) : List Nat :=
  [(msgLen rbuf + 6) >>> 8 % 256, (msgLen rbuf + 6) &&& 0xFF]
    ++ [0x7E, 0xC1,
        ((((0x00 + 0x10) &&& 0x1F ||| nr <<< 5) % 256) &&& 0xF1 ||| ns <<< 1) % 256]
    ++ extB rbuf (getB rbuf 1) (msgLen rbuf) ++ [0x47, 0x0F, 0x7E]

/-- Initial pacing window carried by a CAP_EXCHANGE GDS 1520 message
(2 bytes at CAP_IPW_OFF + 2 past the header). -/
def capWindow (rbuf : List Nat) : Int :=
  Int.ofNat ((getB rbuf (getB rbuf 1 + 13 + 2)) <<< 8 + getB rbuf (getB rbuf 1 + 13 + 3))

/-- Message-type switch of proc_DLSw.  Returns the updated globals, the reply
(DLSw_wbuf content of length DLSwwlen as returned to the main loop) and the
bytes sent on the RS232 signal connection.  wbuf0 is the DLSw_wbuf content of
length DLSwwlen as left by the flow-control preamble (the IFCM it built, or
empty): the cases that write no response of their own never reset the local
DLSwwlen set at DLSw_rt.c line 496, so they hand wbuf0 back unchanged and the
main loop re-sends the IFCM a second time (DLSw_rt.c lines 1023-1025). -/
def switchStep (st : DLSwState) (rbuf : List Nat) (fcb : Nat) (wbuf0 : List Nat) :
    DLSwState × List Nat × List Nat :=
  if getB rbuf 14 = 0x03 then                  -- CANUREACH
    if st.conlfd then
      ({ st with state := 2 }, canuReply rbuf, [])
    else (st, wbuf0, [])
  else if getB rbuf 14 = 0x05 then             -- REACH_ACK
    ({ st with state := 4, flow_control := true,
               dlc := extB rbuf 48 4, dlc_pid := extB rbuf 44 4 }, wbuf0, [])
  else if getB rbuf 14 = 0x07 then             -- XIDFRAME
    if 0 < msgLen rbuf then
      ({ st with PUtype := getB rbuf (getB rbuf 1),
                 IDBLK := (getB rbuf (getB rbuf 1 + 2)) <<< 8 + getB rbuf (getB rbuf 1 + 3),
                 IDNUM := (getB rbuf (getB rbuf 1 + 4)) <<< 8 + getB rbuf (getB rbuf 1 + 5) },
       xidContactReply rbuf fcb, [])
    else (st, xidEmptyReply rbuf fcb, [])
  else if getB rbuf 14 = 0x08 then             -- CONTACT
    ({ st with state := 5 }, contactReply rbuf fcb, [])
  else if getB rbuf 14 = 0x09 then             -- CONTACTED
    ({ st with dlc := extB rbuf 48 4, dlc_pid := extB rbuf 44 4, state := 6 },
     wbuf0, [0x08])                            -- signal = RTS
  else if getB rbuf 14 = 0x04 then             -- ICANREACH
    (st, reachAckReply rbuf fcb, [])
  else if getB rbuf 14 = 0x0A then             -- INFOFRAME
    ({ st with SDLC_wbuf := st.SDLC_wbuf ++ sdlcIFrame rbuf st.seq_Ns st.seq_Nr,
               seq_Ns := if st.seq_Ns + 1 = 8 then 0 else st.seq_Ns + 1 },
     wbuf0, [])
  else if getB rbuf 14 = 0x0E then             -- HALT_DL
    (st, haltReply rbuf, [0xF7])               -- signal = (uint8) ~RTS
  else if getB rbuf 14 = 0x10 then             -- RESTART_DL
    (st, restartReply rbuf, [])
  else if getB rbuf 14 = 0x20 then             -- CAP_EXCHANGE
    if (getB rbuf (getB rbuf 1 + 2)) <<< 8 ||| getB rbuf (getB rbuf 1 + 3) = 0x1520 then
      ({ st with fc_init_window_size := capWindow rbuf,
                 fc_current_window := capWindow rbuf,
                 rp_granted_units := capWindow rbuf,
                 lp_granted_units := capWindow rbuf,
                 fca_owed := false },
       capReply, [])
    else (st, wbuf0, [])                       -- GDS 1521: consumed silently
  else (st, wbuf0, [])                         -- all other types fall through

/-- DLSw_wbuf content of length DLSwwlen as left by the flow-control
preamble: the IFCM it built and already sent once, or empty (DLSwwlen = 0)
when it did not fire. -/
def fcWbuf (st : DLSwState) (rbuf : List Nat) : List Nat :=
  match (fcStep st rbuf).2.1 with
  | some w => w
  | none => []

/-- Result of one proc_DLSw call: new globals, the reply returned to the main
loop (sent when non-empty), the IFCM sent directly inside the flow-control
block, and the bytes sent on the RS232 signal connection. -/
structure ProcResult where
  st : DLSwState
  reply : List Nat
  ifcm : Option (List Nat)
  sig : List Nat
deriving DecidableEq

/-- proc_DLSw of DLSw_rt.c: flow-control preamble, then the message-type
switch, which inherits the flow-control block's buffer and length when its
case writes no response. -/
def proc_DLSw (st : DLSwState) (rbuf : List Nat) : ProcResult :=
  let f := fcStep st rbuf
  let sw := switchStep f.1 rbuf f.2.2 (fcWbuf st rbuf)
  { st := sw.1, reply := sw.2.1, ifcm := f.2.1, sig := sw.2.2 }

/-- Messages transmitted to the peer DLSw router while one received message
is processed: the IFCM sent directly inside the flow-control block
(DLSw_rt.c line 497), then the returned buffer sent by the main loop when
the returned DLSwwlen is not zero (DLSw_rt.c lines 1023-1025). -/
def sentToPeer (r : ProcResult) : List (List Nat) :=
  (match r.ifcm with | some w => [w] | none => []) ++
    (if r.reply = [] then [] else [r.reply])

/-- Whether a DLSw message carries message type IFCM (0x21). -/
def isIFCM (m : List Nat) : Bool := getB m 14 == 0x21

/-- Process a list of received DLSw messages in order; returns the final
globals and the number of IFCM messages sent by the flow-control block. -/
def runMsgs : DLSwState → List (List Nat) → DLSwState × Nat
  | st, [] => (st, 0)
  | st, m :: ms =>
    let r := proc_DLSw st m
    let p := runMsgs r.st ms
    (p.1, (if r.ifcm.isSome then 1 else 0) + p.2)

/-- Per-message IFCM emission flags for a run of proc_DLSw (true when the
flow-control block fired on that message). -/
def stepFlags : DLSwState → List (List Nat) → List Bool
  | _, [] => []
  | st, m :: ms =>
    let r := proc_DLSw st m
    r.ifcm.isSome :: stepFlags r.st ms

/-- Per received message, the number of IFCM messages actually transmitted
to the peer, counting the main-loop re-send of an unconsumed flow-control
buffer. -/
def stepIfcmSends : DLSwState → List (List Nat) → List Nat
  | _, [] => []
  | st, m :: ms =>
    ((sentToPeer (proc_DLSw st m)).filter isIFCM).length
      :: stepIfcmSends (proc_DLSw st m).st ms

/-- A received message is a capabilities re-initialization when it has type
CAP_EXCHANGE and GDS id 0x1520, in which case proc_DLSw overwrites all
pacing counters. -/
def capReinit (m : List Nat) : Prop :=
  getB m 14 = 0x20 ∧ (getB m (getB m 1 + 2)) <<< 8 ||| getB m (getB m 1 + 3) = 0x1520

instance (m : List Nat) : Decidable (capReinit m) := by
  unfold capReinit; infer_instance

/-
  ============= Line Interface Base (src/I3705/i3705_lib.c) =============

  RS232 signal bits (also used by DLSw_rt.c):
    0x80 CTS, 0x40 RI, 0x20 DSR, 0x10 DCD, 0x08 RTS, 0x04 DTR.
-/

/-- RS232 signal clearing performed on connection loss by both ReadLIB and
ReadSig of i3705_lib.c: RS232[k] &= ~(DCD | DSR | RI), i.e. keep only the
bits outside 0x70 of the 8-bit signal register. -/
def dropLineSignals (s : Nat) : Nat := s &&& 0x8F

/-- Initial per-line signal byte set by LIB_thread before listening:
RS232[j] = 0x00, all signals low. -/
def RS232_init : Nat := 0x00

/-- Per-line LIB state of struct LIBLine in i3705_lib.c plus its connection
status and I/O environment: rbuf and tbuf are the first LIBrlen and LIBtlen
bytes of LIB_rbuf and LIB_tbuf, sync is LIBsync, pending models the bytes
available for reading on the data connection, sent collects the frames
flushed to the data connection, hasData models d327x_fd being positive,
alive models the getpeername liveness test, and sig is RS232[k]. -/
structure LibLine where
  rbuf : List Nat
  tbuf : List Nat
  sync : Bool
  pending : List Nat
  sent : List (List Nat)
  hasData : Bool
  alive : Bool
  sig : Nat
deriving DecidableEq

/-- ShiftLeft of i3705_lib.c: buffer[i-1] = buffer[i] for i = 1..len-1 and
return len-1 (named ShiftLeftBuf here since Lean reserves the source name ShiftLeft); on the list of the first len buffer bytes this removes the
first element. -/
def ShiftLeftBuf (buffer : List Nat) : List Nat := buffer.tail

/-- ReadLIB of i3705_lib.c: presets LIBrlen to 0; when the data connection
exists and is alive, reads whatever is pending into LIB_rbuf; when the
connection is detected dead it is closed and DCD, DSR and RI are dropped
(the listener re-arming is outside the model). -/
def ReadLIB (L : LibLine) : LibLine :=
  if L.hasData then
    if L.alive then { L with rbuf := L.pending, pending := [] }
    else { L with rbuf := [], hasData := false, sig := dropLineSignals L.sig }
  else { L with rbuf := [] }

/-- proc_LIBrdata of i3705_lib.c: when the line buffer is empty, attempt
ReadLIB; if a byte is available return it, consuming it with ShiftLeft
unless the scanner is in PCF state 4 or 5; return code 0 = no data,
1 = byte returned with more remaining, 2 = byte returned and buffer now
empty (end of frame). -/
def proc_LIBrdata (state : Nat) (L : LibLine) : Nat × Option Nat × LibLine :=
  let L0 := if L.rbuf = [] then ReadLIB L else L
  if L0.rbuf = [] then (0, none, L0)
  else
    let ch := getB L0.rbuf 0
    let L1 := if ¬(state = 0x4 ∨ state = 0x5) then { L0 with rbuf := ShiftLeftBuf L0.rbuf } else L0
    if L1.rbuf = [] then (2, some ch, L1) else (1, some ch, L1)

/-- proc_LIBtdata of i3705_lib.c: on PCF state C or D with LIBsync set, flush
the whole transmit buffer as one frame and reset LIBtlen and LIBsync;
otherwise, while LIBsync is set and the state is not 8, append the
transmitted character; state 8 with LIBsync clear starts a new frame. -/
def proc_LIBtdata (c state : Nat) (L : LibLine) : LibLine :=
  let L1 :=
    if L.sync = true ∧ (state = 0xC ∨ state = 0xD) then
      { L with sync := false, sent := L.sent ++ [L.tbuf], tbuf := [] }
    else L
  let L2 :=
    if L1.sync = true ∧ state ≠ 0x8 then { L1 with tbuf := L1.tbuf ++ [c] } else L1
  if state = 0x8 ∧ ¬(L2.sync = true) then { L2 with sync := true, tbuf := [] } else L2

/-
  ========== Communication Scanner Type 2 (src/I3705/i3705_scan_T2.c) ==========
-/

/-- Line state values RESET, TX, RX used in icw_lne_stat (the numeric values
live in the i3705_defs.h header, which only compares them symbolically). -/
inductive LneStat | RESET | TX | RX
deriving DecidableEq

/-- PDF register handshake values EMPTY and FILLED of icw_pdf_reg (numeric
values in i3705_defs.h, used symbolically). -/
inductive PdfReg | EMPTY | FILLED
deriving DecidableEq

/-- Per-line scanner state: the ICW local store registers of
i3705_scan_T2.c, the emulator-only ICW fields, the shared RS232 signal
byte, the SDLC framer state (Eflg_rcvd, FCS_rcvd), the level-2 request
flag CS2_req_L2_int, the thread variables receivedChar and transmitChar,
and the LIB line state. -/
structure ScanLine where
  scf : Nat
  pdf : Nat
  lcd : Nat
  pcf : Nat
  sdf : Nat
  pcf_prev : Nat
  pcf_nxt : Nat
  lne_stat : LneStat
  pdf_reg : PdfReg
  rs232 : Nat
  eflg : Bool
  fcs0 : Nat
  fcs1 : Nat
  l2req : Bool
  receivedChar : Nat
  transmitChar : Nat
  lib : LibLine
deriving DecidableEq

/-- One execution of the PCF dispatch switch of CS2_thread for one line,
given the CPU-side level-2 service flag svc_req_L2 and interrupt level lvl.
Each branch follows the corresponding case of the C switch; debug tracing
is omitted. -/
def dispatch (svcL2 : Bool) (lvl : Nat) (s : ScanLine) : ScanLine :=
  if s.pcf = 0x0 then s                                   -- NO-OP
  else if s.pcf = 0x1 then                                -- Set mode
    { s with scf := (s.scf &&& 0x4A) ||| 0x40, sdf := s.sdf ||| 0x08,
             rs232 := s.rs232 ||| 0x04, pcf_nxt := 0x0, l2req := true }
  else if s.pcf = 0x2 then                                -- Mon DSR on
    if s.rs232 &&& 0x10 ≠ 0 then
      if s.rs232 &&& 0x20 ≠ 0 then
        { s with scf := (s.scf ||| 0x08) ||| 0x40, pcf_nxt := 0x4, l2req := true }
      else
        { s with scf := (s.scf ||| 0x08) ||| 0x40, pcf_nxt := 0x2, l2req := true }
    else { s with pcf_nxt := 0x2, scf := s.scf &&& 0xF7 }
  else if s.pcf = 0x3 then                                -- Mon RI or DSR on
    if s.pcf_prev ≠ s.pcf then
      { s with scf := s.scf ||| 0x40, pcf_nxt := 0x0, l2req := true }
    else s
  else if s.pcf = 0x4 ∨ s.pcf = 0x5 then                  -- Monitor flag
    if s.rs232 &&& 0x20 = 0 then
      { s with scf := s.scf ||| 0x40, pcf_nxt := 0x2, l2req := true }
    else if s.lne_stat = LneStat.TX then s
    else if s.lcd = 0xC then
      let r := proc_LIBrdata s.pcf s.lib
      let ch := r.2.1.getD s.receivedChar
      let s1 := { s with lib := r.2.2, receivedChar := ch }
      if r.1 ≠ 1 then s1
      else if ch = 0x32 then
        { s1 with pdf := ch, pcf_nxt := 0x7, sdf := s1.sdf ||| 0x04 }
      else s1
    else if s.lcd = 0x8 ∨ s.lcd = 0x9 then
      let r := proc_LIBrdata s.pcf s.lib
      let ch := r.2.1.getD s.receivedChar
      let s1 := { s with eflg := false, lib := r.2.2, receivedChar := ch }
      if r.1 = 0 then s1
      else if ch = 0x7E then
        { s1 with scf := s1.scf ||| 0x04, lcd := 0x9, pcf_nxt := 0x6, l2req := true }
      else
        { s1 with lib := { s1.lib with rbuf := [] }, pcf_nxt := 0x5 }
    else s
  else if s.pcf = 0x6 then                                -- Receive info, inhibit
    if svcL2 = true ∨ lvl = 2 then s
    else
      let r := proc_LIBrdata s.pcf s.lib
      let ch := r.2.1.getD s.receivedChar
      let s1 := { s with lib := r.2.2, receivedChar := ch }
      if r.1 = 0 then s1
      else if ch = 0x7E then
        { s1 with pcf_nxt := 0x6, scf := s1.scf ||| 0x04 }
      else
        { s1 with scf := (s1.scf &&& 0xFB) ||| 0x40, pdf := ch,
                  pdf_reg := PdfReg.FILLED, pcf_nxt := 0x7, l2req := true }
  else if s.pcf = 0x7 then                                -- Receive info, allow
    if svcL2 = true ∨ lvl = 2 then s
    else if s.lcd = 0xC then
      if s.scf &&& 0x40 = 0 then
        let r := proc_LIBrdata s.pcf s.lib
        let ch := if r.1 ≠ 1 then 0xFF else r.2.1.getD s.receivedChar
        { s with lib := r.2.2, receivedChar := ch, pdf := ch,
                 scf := s.scf ||| 0x40, pcf_nxt := 0x7, l2req := true }
      else s
    else if s.lcd = 0x8 ∨ s.lcd = 0x9 then
      let r := proc_LIBrdata s.pcf s.lib
      let ch := r.2.1.getD s.receivedChar
      let s1 := { s with lib := r.2.2, receivedChar := ch }
      if r.1 = 0 then s1
      else if ch = 0x7E ∧ s.fcs0 = 0x47 ∧ s.fcs1 = 0x0F then
        { s1 with lne_stat := LneStat.TX, scf := s1.scf ||| 0x44, lcd := 0x9,
                  pcf_nxt := 0x6, l2req := true, eflg := false, fcs0 := 0x00, fcs1 := 0x00 }
      else
        { s1 with fcs0 := s.fcs1, fcs1 := ch, eflg := false, pdf := ch,
                  pdf_reg := PdfReg.FILLED, scf := s1.scf ||| 0x40, pcf_nxt := 0x7, l2req := true }
    else s
  else if s.pcf = 0x8 then                                -- Transmit initial
    if svcL2 = true ∨ lvl = 2 then s
    else if s.rs232 &&& 0x80 = 0 then { s with rs232 := s.rs232 ||| 0x08 }
    else if s.lcd = 0xC then
      let tc := if s.scf &&& 0x40 = 0 then s.pdf else s.transmitChar
      { s with transmitChar := tc, lib := proc_LIBtdata tc 0x8 s.lib,
               pdf_reg := PdfReg.EMPTY, scf := s.scf ||| 0x40, pcf_nxt := 0x9, l2req := true }
    else if s.lcd = 0x9 then
      { s with lib := proc_LIBtdata s.transmitChar 0x8 s.lib,
               scf := s.scf &&& 0xFB, pcf_nxt := 0x9 }
    else s
  else if s.pcf = 0x9 then                                -- Transmit normal
    if svcL2 = true ∨ lvl = 2 then s
    else if s.lcd = 0xC then
      if s.scf &&& 0x40 = 0 then
        { s with transmitChar := s.pdf, lib := proc_LIBtdata s.pdf 0x9 s.lib,
                 pdf_reg := PdfReg.EMPTY, scf := s.scf ||| 0x40, pcf_nxt := 0x9, l2req := true }
      else s
    else if s.lcd = 0x9 then
      if s.pdf_reg = PdfReg.FILLED then
        { s with transmitChar := s.pdf, lib := proc_LIBtdata s.pdf 0x9 s.lib,
                 pdf_reg := PdfReg.EMPTY, scf := s.scf ||| 0x40, pcf_nxt := 0x9, l2req := true }
      else s
    else s
  else if s.pcf = 0xA then                                -- Transmit, new sync
    if svcL2 = true ∨ lvl = 2 then s
    else if s.lcd = 0xC then
      if s.scf &&& 0x40 = 0 then
        { s with transmitChar := s.pdf, lib := proc_LIBtdata s.pdf 0xA s.lib,
                 pdf_reg := PdfReg.EMPTY, scf := s.scf ||| 0x40, pcf_nxt := 0xA, l2req := true }
      else s
    else s
  else if s.pcf = 0xC then                                -- Turnaround, RTS off
    let s1 :=
      if s.lcd = 0xC then
        if s.pcf_prev ≠ s.pcf then
          { s with transmitChar := s.pdf, lib := proc_LIBtdata s.pdf 0xC s.lib,
                   lne_stat := LneStat.RX, scf := s.scf ||| 0x40, pcf_nxt := 0x5, l2req := true }
        else s
      else if s.lcd = 0x9 then
        if s.pcf_prev ≠ s.pcf then
          { s with lib := proc_LIBtdata s.transmitChar 0xC s.lib,
                   lne_stat := LneStat.RX, scf := s.scf ||| 0x40, pcf_nxt := 0x5, l2req := true }
        else s
      else s
    { s1 with rs232 := (s1.rs232 &&& 0xF7) &&& 0x7F }
  else if s.pcf = 0xD then                                -- Turnaround, RTS on
    if s.lcd = 0xC then { s with pcf_nxt := 0x5, l2req := true }
    else s
  else if s.pcf = 0xF then                                -- Disable line
    { s with scf := s.scf ||| 0x40, sdf := s.sdf &&& 0xF7,
             rs232 := s.rs232 &&& 0xFB, pcf_nxt := 0x0, l2req := true }
  else s                                                  -- 0xB, 0xE unused

/-
  ==================== Concrete inputs and states ====================
-/

/-- DLSw globals as initialized by main: state DISCONNECTED, flow control
off, pacing counters 0. -/
def dlswStart : DLSwState :=
  { state := 0, conlfd := false, flow_control := false,
    fc_init_window_size := 0, fc_current_window := 0, rp_granted_units := 0,
    lp_granted_units := 0, fca_owed := false, fca_due := false,
    dlc := [0x00, 0x00, 0x00, 0x00], dlc_pid := [0x00, 0x00, 0x00, 0x00],
    seq_Ns := 0, seq_Nr := 0, SDLC_wbuf := [], PUtype := 0, IDBLK := 0, IDNUM := 0 }

/-- Body of a CAP_EXCHANGE GDS 1520 message carrying initial pacing window 4
(bytes 15 and 16, following the CAP_IPW subfield marker 0x83). -/
def capBody4 : List Nat :=
  [0x00, 0x26, 0x15, 0x20, 0x05, 0x81, 0x00, 0x00,
   0x00, 0x04, 0x82, 0x02, 0x00, 0x04, 0x83, 0x00,
   0x04, 0x12, 0x86, 0xFF]

/-- Concrete CAP_EXCHANGE GDS 1520 message with initial pacing window 4. -/
def capMsg4 : List Nat := (CONTROL_MSG_Hdr.set 14 0x20) ++ capBody4

/-- Concrete REACH_ACK message (FCB clear). -/
def reachAckMsg : List Nat := CONTROL_MSG_Hdr.set 14 0x05

/-- Concrete INFOFRAME data message: 16-byte info header, message length 1,
FCB clear, one payload byte. -/
def infoMsgW : List Nat :=
  [0x31, 0x10, 0x00, 0x01, 0x00, 0x00, 0x00, 0x00,
   0x00, 0x00, 0x00, 0x00, 0x00, 0x00, 0x0A, 0x00, 0xAB]

/-- Concrete INFOFRAME data message with a 10-byte payload. -/
def infoMsg10 : List Nat :=
  [0x31, 0x10, 0x00, 0x0A, 0x00, 0x00, 0x00, 0x00,
   0x00, 0x00, 0x00, 0x00, 0x00, 0x00, 0x0A, 0x00,
   0x01, 0x02, 0x03, 0x04, 0x05, 0x06, 0x07, 0x08, 0x09, 0x0A]

/-- Concrete HALT_DL message with distinct origin port id and correlator. -/
def haltMsgW : List Nat :=
  (CONTROL_MSG_Hdr.set 14 0x0E).set 44 0x0A |>.set 45 0x0B |>.set 46 0x0C
    |>.set 47 0x0D |>.set 48 0x01 |>.set 49 0x02 |>.set 50 0x03 |>.set 51 0x04

/-- DLSw globals with flow control enabled and all pacing counters
initialized to window 4, as left by a capabilities exchange with initial
window 4 followed by REACH_ACK, with the circuit CONNECTED. -/
def stFC4 : DLSwState :=
  { state := 6, conlfd := true, flow_control := true,
    fc_init_window_size := 4, fc_current_window := 4, rp_granted_units := 4,
    lp_granted_units := 4, fca_owed := false, fca_due := false,
    dlc := [0x01, 0x02, 0x03, 0x04], dlc_pid := [0x0A, 0x0B, 0x0C, 0x0D],
    seq_Ns := 0, seq_Nr := 0, SDLC_wbuf := [], PUtype := 0, IDBLK := 0, IDNUM := 0 }

/-- Connected circuit with fresh sequence numbers and empty SDLC write
buffer, flow control not yet enabled. -/
def stC3 : DLSwState := { stFC4 with flow_control := false }

/-- The five data frames of the flow-control stress scenario. -/
def fiveFrames : List (List Nat) := List.replicate 5 infoMsgW

/-- LIB line with one byte buffered and a healthy data connection. -/
def L1 : LibLine :=
  { rbuf := [0x05], tbuf := [], sync := false, pending := [], sent := [],
    hasData := true, alive := true, sig := 0x00 }

/-- LIB line whose data connection has just died while the local signals
were DCD, RI, DSR and DTR high (signal byte 0x74). -/
def L74 : LibLine :=
  { rbuf := [], tbuf := [], sync := false, pending := [], sent := [],
    hasData := true, alive := false, sig := 0x74 }

/-- Quiet SDLC scanner line used as a base for concrete scanner states. -/
def lineBase : ScanLine :=
  { scf := 0x00, pdf := 0x00, lcd := 0x9, pcf := 0x0, sdf := 0x00,
    pcf_prev := 0x0, pcf_nxt := 0x0, lne_stat := LneStat.RESET,
    pdf_reg := PdfReg.EMPTY, rs232 := 0x00, eflg := false, fcs0 := 0x00,
    fcs1 := 0x00, l2req := false, receivedChar := 0x00, transmitChar := 0x00,
    lib := { rbuf := [], tbuf := [], sync := false, pending := [], sent := [],
             hasData := true, alive := true, sig := 0x00 } }

/-- SDLC line that has just been switched into PCF D after transmitting:
three bytes accumulated in the transmit buffer, LIBsync set. -/
def sD : ScanLine :=
  { lineBase with
    pcf := 0xD, pcf_nxt := 0xD, pcf_prev := 0x9, lcd := 0x9,
    lne_stat := LneStat.TX,
    lib := { lineBase.lib with tbuf := [0x01, 0x02, 0x03], sync := true } }

/-- BSC line sitting in PCF D. -/
def sDB : ScanLine :=
  { lineBase with pcf := 0xD, pcf_nxt := 0xD, pcf_prev := 0xD, lcd := 0xC }

/-- SDLC line that has just been switched into PCF C after transmitting. -/
def sC : ScanLine :=
  { lineBase with
    pcf := 0xC, pcf_nxt := 0xC, pcf_prev := 0x9, lcd := 0x9,
    lne_stat := LneStat.TX,
    lib := { lineBase.lib with tbuf := [0x09, 0x09], sync := true } }

/-- SDLC line sitting in PCF 6. -/
def s6 : ScanLine := { lineBase with pcf := 0x6, pcf_nxt := 0x6, pcf_prev := 0x6 }


/-
  ==================== Buffer access lemmas ====================
-/

theorem getB_append_lt (l r : List Nat) (i : Nat) (h : i < l.length) :
    getB (l ++ r) i = getB l i := by
  induction l generalizing i with
  | nil => simp at h
  | cons a t ih =>
    cases i with
    | zero => rfl
    | succ j => exact ih j (Nat.lt_of_succ_lt_succ h)

theorem getB_append_ge (l r : List Nat) (i : Nat) (h : l.length ≤ i) :
    getB (l ++ r) i = getB r (i - l.length) := by
  induction l generalizing i with
  | nil => simp
  | cons a t ih =>
    cases i with
    | zero => simp at h
    | succ j =>
      have := ih j (Nat.le_of_succ_le_succ h)
      simpa [Nat.succ_sub_succ] using this

theorem getB_take (l : List Nat) (n i : Nat) (h : i < n) :
    getB (l.take n) i = getB l i := by
  induction l generalizing n i with
  | nil => simp
  | cons a t ih =>
    cases n with
    | zero => omega
    | succ m =>
      cases i with
      | zero => rfl
      | succ j => exact ih m j (Nat.lt_of_succ_lt_succ h)

theorem getB_drop (l : List Nat) (n i : Nat) :
    getB (l.drop n) i = getB l (n + i) := by
  induction l generalizing n with
  | nil =>
    rw [List.drop_nil]
    rfl
  | cons a t ih =>
    cases n with
    | zero => simp
    | succ m =>
      rw [Nat.succ_add]
      exact ih m

theorem getB_set_eq (l : List Nat) (i v : Nat) (h : i < l.length) :
    getB (l.set i v) i = v := by
  induction l generalizing i with
  | nil => simp at h
  | cons a t ih =>
    cases i with
    | zero => rfl
    | succ j => exact ih j (Nat.lt_of_succ_lt_succ h)

theorem getB_set_ne (l : List Nat) (i j v : Nat) (h : i ≠ j) :
    getB (l.set i v) j = getB l j := by
  induction l generalizing i j with
  | nil => rfl
  | cons a t ih =>
    cases i with
    | zero =>
      cases j with
      | zero => exact absurd rfl h
      | succ k => rfl
    | succ i' =>
      cases j with
      | zero => rfl
      | succ k => exact ih i' k (by omega)

theorem getB_extB (l : List Nat) (off n i : Nat) (h : i < n) :
    getB (extB l off n) i = getB l (off + i) := by
  unfold extB
  rw [getB_take _ _ _ h, getB_drop]

theorem extB_length (l : List Nat) (off n : Nat) (h : off + n ≤ l.length) :
    (extB l off n).length = n := by
  unfold extB
  simp
  omega

theorem blit_length (dst src : List Nat) (off : Nat) (h : off + src.length ≤ dst.length) :
    (blit dst off src).length = dst.length := by
  unfold blit
  simp
  omega

theorem getB_blit_lt (dst src : List Nat) (off i : Nat) (hi : i < off)
    (ho : off ≤ dst.length) :
    getB (blit dst off src) i = getB dst i := by
  unfold blit
  rw [getB_append_lt _ _ _ (by simp; omega),
    getB_append_lt _ _ _ (by simp; omega), getB_take _ _ _ hi]

theorem getB_blit_mem (dst src : List Nat) (off i : Nat) (h1 : off ≤ i)
    (h2 : i < off + src.length) (ho : off ≤ dst.length) :
    getB (blit dst off src) i = getB src (i - off) := by
  unfold blit
  have hlt : (dst.take off).length = off := by simp; omega
  rw [getB_append_lt _ _ _ (by simp; omega),
    getB_append_ge _ _ _ (by simp; omega), hlt]

theorem getB_blit_ge (dst src : List Nat) (off i : Nat) (h : off + src.length ≤ i)
    (ho : off ≤ dst.length) :
    getB (blit dst off src) i = getB dst i := by
  unfold blit
  rw [getB_append_ge _ _ _ (by simp; omega), getB_drop]
  congr 1
  simp
  omega

/-
  ==================== Model-level lemmas ====================
-/

theorem fcStep_pres (st : DLSwState) (rbuf : List Nat) :
    (fcStep st rbuf).1.state = st.state ∧
    (fcStep st rbuf).1.conlfd = st.conlfd ∧
    (fcStep st rbuf).1.flow_control = st.flow_control ∧
    (fcStep st rbuf).1.fc_current_window = st.fc_current_window ∧
    (fcStep st rbuf).1.fc_init_window_size = st.fc_init_window_size ∧
    (fcStep st rbuf).1.seq_Ns = st.seq_Ns ∧
    (fcStep st rbuf).1.seq_Nr = st.seq_Nr ∧
    (fcStep st rbuf).1.SDLC_wbuf = st.SDLC_wbuf := by
  simp only [fcStep]
  split_ifs <;> exact ⟨rfl, rfl, rfl, rfl, rfl, rfl, rfl, rfl⟩

theorem fcStep_rp (st : DLSwState) (rbuf : List Nat) (h : st.flow_control = true) :
    ((fcStep st rbuf).2.1 = none ∧
     (fcStep st rbuf).1.rp_granted_units = st.rp_granted_units - 1) ∨
    ((fcStep st rbuf).2.1.isSome = true ∧
     (fcStep st rbuf).1.rp_granted_units = st.rp_granted_units - 1 + st.fc_current_window) := by
  simp only [fcStep]
  split_ifs <;> first
    | exact Or.inl ⟨rfl, rfl⟩
    | exact Or.inr ⟨rfl, rfl⟩

theorem switchStep_pres (st : DLSwState) (m : List Nat) (fcb : Nat) (w0 : List Nat)
    (hnc : ¬ capReinit m) :
    (switchStep st m fcb w0).1.rp_granted_units = st.rp_granted_units ∧
    (switchStep st m fcb w0).1.fc_current_window = st.fc_current_window ∧
    (st.flow_control = true → (switchStep st m fcb w0).1.flow_control = true) := by
  unfold switchStep
  by_cases h1 : getB m 14 = 0x03
  · rw [if_pos h1]
    by_cases hc : st.conlfd = true
    · rw [if_pos hc]
      exact ⟨rfl, rfl, fun h => h⟩
    · rw [if_neg hc]
      exact ⟨rfl, rfl, fun h => h⟩
  · rw [if_neg h1]
    by_cases h2 : getB m 14 = 0x05
    · rw [if_pos h2]
      exact ⟨rfl, rfl, fun _ => rfl⟩
    · rw [if_neg h2]
      by_cases h3 : getB m 14 = 0x07
      · rw [if_pos h3]
        by_cases hm : 0 < msgLen m
        · rw [if_pos hm]
          exact ⟨rfl, rfl, fun h => h⟩
        · rw [if_neg hm]
          exact ⟨rfl, rfl, fun h => h⟩
      · rw [if_neg h3]
        by_cases h4 : getB m 14 = 0x08
        · rw [if_pos h4]
          exact ⟨rfl, rfl, fun h => h⟩
        · rw [if_neg h4]
          by_cases h5 : getB m 14 = 0x09
          · rw [if_pos h5]
            exact ⟨rfl, rfl, fun h => h⟩
          · rw [if_neg h5]
            by_cases h6 : getB m 14 = 0x04
            · rw [if_pos h6]
              exact ⟨rfl, rfl, fun h => h⟩
            · rw [if_neg h6]
              by_cases h7 : getB m 14 = 0x0A
              · rw [if_pos h7]
                exact ⟨rfl, rfl, fun h => h⟩
              · rw [if_neg h7]
                by_cases h8 : getB m 14 = 0x0E
                · rw [if_pos h8]
                  exact ⟨rfl, rfl, fun h => h⟩
                · rw [if_neg h8]
                  by_cases h9 : getB m 14 = 0x10
                  · rw [if_pos h9]
                    exact ⟨rfl, rfl, fun h => h⟩
                  · rw [if_neg h9]
                    by_cases h10 : getB m 14 = 0x20
                    · rw [if_pos h10]
                      by_cases h11 : (getB m (getB m 1 + 2)) <<< 8 ||| getB m (getB m 1 + 3) = 0x1520
                      · exact absurd ⟨h10, h11⟩ hnc
                      · rw [if_neg h11]
                        exact ⟨rfl, rfl, fun h => h⟩
                    · rw [if_neg h10]
                      exact ⟨rfl, rfl, fun h => h⟩

theorem switchStep_info (st : DLSwState) (m : List Nat) (fcb : Nat) (w0 : List Nat)
    (h : getB m 14 = 0x0A) :
    switchStep st m fcb w0 =
      ({ st with SDLC_wbuf := st.SDLC_wbuf ++ sdlcIFrame m st.seq_Ns st.seq_Nr,
                 seq_Ns := if st.seq_Ns + 1 = 8 then 0 else st.seq_Ns + 1 },
       w0, []) := by
  unfold switchStep
  have n1 : ¬(getB m 14 = 0x03) := by rw [h]; decide
  have n2 : ¬(getB m 14 = 0x05) := by rw [h]; decide
  have n3 : ¬(getB m 14 = 0x07) := by rw [h]; decide
  have n4 : ¬(getB m 14 = 0x08) := by rw [h]; decide
  have n5 : ¬(getB m 14 = 0x09) := by rw [h]; decide
  have n6 : ¬(getB m 14 = 0x04) := by rw [h]; decide
  rw [if_neg n1, if_neg n2, if_neg n3, if_neg n4, if_neg n5, if_neg n6, if_pos h]

theorem switchStep_cap (st : DLSwState) (m : List Nat) (fcb : Nat) (w0 : List Nat)
    (h : getB m 14 = 0x20)
    (hg : (getB m (getB m 1 + 2)) <<< 8 ||| getB m (getB m 1 + 3) = 0x1520) :
    switchStep st m fcb w0 =
      ({ st with fc_init_window_size := capWindow m, fc_current_window := capWindow m,
                 rp_granted_units := capWindow m, lp_granted_units := capWindow m,
                 fca_owed := false },
       capReply, []) := by
  unfold switchStep
  have n1 : ¬(getB m 14 = 0x03) := by rw [h]; decide
  have n2 : ¬(getB m 14 = 0x05) := by rw [h]; decide
  have n3 : ¬(getB m 14 = 0x07) := by rw [h]; decide
  have n4 : ¬(getB m 14 = 0x08) := by rw [h]; decide
  have n5 : ¬(getB m 14 = 0x09) := by rw [h]; decide
  have n6 : ¬(getB m 14 = 0x04) := by rw [h]; decide
  have n7 : ¬(getB m 14 = 0x0A) := by rw [h]; decide
  have n8 : ¬(getB m 14 = 0x0E) := by rw [h]; decide
  have n9 : ¬(getB m 14 = 0x10) := by rw [h]; decide
  rw [if_neg n1, if_neg n2, if_neg n3, if_neg n4, if_neg n5, if_neg n6, if_neg n7,
    if_neg n8, if_neg n9, if_pos h, if_pos hg]

theorem switchStep_halt (st : DLSwState) (m : List Nat) (fcb : Nat) (w0 : List Nat)
    (h : getB m 14 = 0x0E) :
    switchStep st m fcb w0 = (st, haltReply m, [0xF7]) := by
  unfold switchStep
  have n1 : ¬(getB m 14 = 0x03) := by rw [h]; decide
  have n2 : ¬(getB m 14 = 0x05) := by rw [h]; decide
  have n3 : ¬(getB m 14 = 0x07) := by rw [h]; decide
  have n4 : ¬(getB m 14 = 0x08) := by rw [h]; decide
  have n5 : ¬(getB m 14 = 0x09) := by rw [h]; decide
  have n6 : ¬(getB m 14 = 0x04) := by rw [h]; decide
  have n7 : ¬(getB m 14 = 0x0A) := by rw [h]; decide
  rw [if_neg n1, if_neg n2, if_neg n3, if_neg n4, if_neg n5, if_neg n6, if_neg n7, if_pos h]

theorem runMsgs_nil (st : DLSwState) : runMsgs st [] = (st, 0) := rfl

theorem runMsgs_cons (st : DLSwState) (m : List Nat) (ms : List (List Nat)) :
    runMsgs st (m :: ms) =
      ((runMsgs (proc_DLSw st m).st ms).1,
       (if (proc_DLSw st m).ifcm.isSome then 1 else 0) + (runMsgs (proc_DLSw st m).st ms).2) := rfl

theorem proc_step_rp (st : DLSwState) (m : List Nat)
    (hfc : st.flow_control = true) (hnc : ¬ capReinit m) :
    (proc_DLSw st m).st.flow_control = true ∧
    (proc_DLSw st m).st.fc_current_window = st.fc_current_window ∧
    (((proc_DLSw st m).ifcm = none ∧
      (proc_DLSw st m).st.rp_granted_units = st.rp_granted_units - 1) ∨
     ((proc_DLSw st m).ifcm.isSome = true ∧
      (proc_DLSw st m).st.rp_granted_units = st.rp_granted_units - 1 + st.fc_current_window)) := by
  obtain ⟨hp1, hp2, hp3, hp4, hp5, hp6, hp7, hp8⟩ := fcStep_pres st m
  obtain ⟨hs1, hs2, hs3⟩ := switchStep_pres (fcStep st m).1 m (fcStep st m).2.2 (fcWbuf st m) hnc
  have hfc1 : (fcStep st m).1.flow_control = true := by rw [hp3]; exact hfc
  refine ⟨hs3 hfc1, by rw [show (proc_DLSw st m).st = (switchStep (fcStep st m).1 m (fcStep st m).2.2 (fcWbuf st m)).1 from rfl, hs2, hp4], ?_⟩
  rcases fcStep_rp st m hfc with ⟨h1, h2⟩ | ⟨h1, h2⟩
  · refine Or.inl ⟨h1, ?_⟩
    rw [show (proc_DLSw st m).st = (switchStep (fcStep st m).1 m (fcStep st m).2.2 (fcWbuf st m)).1 from rfl, hs1, h2]
  · refine Or.inr ⟨h1, ?_⟩
    rw [show (proc_DLSw st m).st = (switchStep (fcStep st m).1 m (fcStep st m).2.2 (fcWbuf st m)).1 from rfl, hs1, h2]

/-- C1 (amended): with flow control enabled and the pacing counters
initialized by a Capabilities Exchange, after every sequence of N received
DLSw messages none of which is itself a CAP_EXCHANGE with GDS id 0x1520
(such a message re-initializes the counters), rp_granted_units equals
rp_granted_units at the start plus k times fc_current_window minus N,
where k is the number of IFCM-RPT messages built and sent by the
flow-control block itself (the main loop transmits the same IFCM-RPT to
the peer a second time whenever the triggering message produces no reply
of its own, with no further effect on the counter): each received message
decrements rp_granted_units by exactly 1 and each flow-control IFCM-RPT
increments it by exactly fc_current_window, which itself stays
unchanged. -/
theorem C1_pacing (st : DLSwState) (msgs : List (List Nat))
    (hfc : st.flow_control = true)
    (hnc : ∀ m ∈ msgs, ¬ capReinit m) :
    (runMsgs st msgs).1.rp_granted_units =
      st.rp_granted_units + ((runMsgs st msgs).2 : Int) * st.fc_current_window
        - (msgs.length : Int) ∧
    (runMsgs st msgs).1.fc_current_window = st.fc_current_window ∧
    (runMsgs st msgs).1.flow_control = true := by
  induction msgs generalizing st with
  | nil =>
    refine ⟨?_, rfl, hfc⟩
    simp [runMsgs_nil]
  | cons m ms ih =>
    obtain ⟨hf, hw, hrp⟩ := proc_step_rp st m hfc (hnc m (List.mem_cons_self m ms))
    obtain ⟨ih1, ih2, ih3⟩ :=
      ih (proc_DLSw st m).st hf (fun x hx => hnc x (List.mem_cons_of_mem m hx))
    rw [runMsgs_cons]
    refine ⟨?_, by rw [ih2, hw], ih3⟩
    show (runMsgs (proc_DLSw st m).st ms).1.rp_granted_units = _
    rw [ih1, hw]
    rcases hrp with ⟨h1, h2⟩ | ⟨h1, h2⟩
    · rw [h2, h1]
      simp only [Option.isSome_none, Bool.false_eq_true, if_false, List.length_cons]
      push_cast
      ring
    · rw [h2, h1]
      simp only [if_true, List.length_cons]
      push_cast
      ring

theorem C1_pacing_witness :
    (runMsgs stFC4 [infoMsgW]).1.rp_granted_units =
      stFC4.rp_granted_units + ((runMsgs stFC4 [infoMsgW]).2 : Int) * stFC4.fc_current_window
        - (([infoMsgW] : List (List Nat)).length : Int) ∧
    (runMsgs stFC4 [infoMsgW]).1.fc_current_window = stFC4.fc_current_window ∧
    (runMsgs stFC4 [infoMsgW]).1.flow_control = true :=
  C1_pacing stFC4 [infoMsgW] rfl (by decide)

/-- C1 (counterexample to the claim as stated): starting from the state left
by a Capabilities Exchange with initial window 4 followed by REACH_ACK
(flow control on, rp_granted_units = fc_current_window =
fc_init_window_size = 4, no acknowledge owed), (a) processing one received
data frame makes the engine transmit the IFCM-RPT to the peer twice - once
directly from the flow-control block and once more re-sent by the main
loop, since case INFOFRAME never resets the length the flow-control block
stored - so k = 2 IFCM-RPT messages are sent, yet rp_granted_units becomes
7, not 4 + 2 * 4 - 1 = 11; and (b) processing one further CAP_EXCHANGE GDS
1520 message sends k = 1 IFCM-RPT, yet afterwards rp_granted_units is 4,
not 4 + 1 * 4 - 1 = 7, because the capabilities exchange re-initializes
the counter. -/
theorem C1_counterexample :
    (runMsgs dlswStart [capMsg4, reachAckMsg]).1.flow_control = true ∧
    (runMsgs dlswStart [capMsg4, reachAckMsg]).1.rp_granted_units = 4 ∧
    (runMsgs dlswStart [capMsg4, reachAckMsg]).1.fc_current_window = 4 ∧
    (runMsgs dlswStart [capMsg4, reachAckMsg]).1.fc_init_window_size = 4 ∧
    (runMsgs dlswStart [capMsg4, reachAckMsg]).1.fca_owed = false ∧
    ((sentToPeer (proc_DLSw (runMsgs dlswStart [capMsg4, reachAckMsg]).1 infoMsgW)).filter
        isIFCM).length = 2 ∧
    (proc_DLSw (runMsgs dlswStart [capMsg4, reachAckMsg]).1 infoMsgW).st.rp_granted_units = 7 ∧
    ¬((proc_DLSw (runMsgs dlswStart [capMsg4, reachAckMsg]).1 infoMsgW).st.rp_granted_units =
        4 + 2 * 4 - 1) ∧
    (runMsgs (runMsgs dlswStart [capMsg4, reachAckMsg]).1 [capMsg4]).2 = 1 ∧
    ¬((runMsgs (runMsgs dlswStart [capMsg4, reachAckMsg]).1 [capMsg4]).1.rp_granted_units =
        4 + 1 * 4 - 1) := by decide

/-- C2 (counterexample to the claim as stated): with fc_current_window = 4
and rp_granted_units initialized to 4, when the peer sends five frames in
a row the engine transmits IFCM-RPT messages only after the 1st frame, and
it transmits two of them there - the flow-control block sends one and the
main loop re-sends it, since case INFOFRAME never resets the length the
flow-control block stored - so the per-frame IFCM transmission counts are
2, 0, 0, 0, 0: neither exactly one IFCM in total, nor any emission after
the 4th frame. -/
theorem C2_counterexample :
    stepIfcmSends stFC4 fiveFrames = [2, 0, 0, 0, 0] ∧
    ¬((stepIfcmSends stFC4 fiveFrames).sum = 1) ∧
    stepIfcmSends stFC4 fiveFrames ≠ [0, 0, 0, 1, 0] := by decide

/-- C2 (amended): with flow control enabled, fc_current_window = 4 and
rp_granted_units initialized to 4, five received frames in a row cause
exactly one activation of the flow-control block, after the 1st received
frame, when rp_granted_units drops to 3, at or below the current window,
with no acknowledge owed; the activation raises rp_granted_units to 7 and
sets fca_owed, which suppresses any further IFCM after frames 2 to 5, and
its IFCM-RPT reaches the peer twice - sent once directly and once more by
the main loop, because case INFOFRAME leaves the returned message length
set to the IFCM length - so the per-frame counts of transmitted IFCMs are
2, 0, 0, 0, 0 and the two transmitted copies are identical. -/
theorem C2_window_stress :
    stepFlags stFC4 fiveFrames = [true, false, false, false, false] ∧
    (runMsgs stFC4 fiveFrames).2 = 1 ∧
    stepIfcmSends stFC4 fiveFrames = [2, 0, 0, 0, 0] ∧
    sentToPeer (proc_DLSw stFC4 infoMsgW) =
      [ifcmMsg stFC4.dlc stFC4.dlc_pid, ifcmMsg stFC4.dlc stFC4.dlc_pid] ∧
    (runMsgs stFC4 [infoMsgW]).1.rp_granted_units = 7 ∧
    (runMsgs stFC4 [infoMsgW]).1.fca_owed = true := by decide

theorem proc_step_seq (st : DLSwState) (m : List Nat) (h : getB m 14 = 0x0A) :
    (proc_DLSw st m).st.seq_Ns = (if st.seq_Ns + 1 = 8 then 0 else st.seq_Ns + 1) := by
  obtain ⟨hp1, hp2, hp3, hp4, hp5, hp6, hp7, hp8⟩ := fcStep_pres st m
  have hsw := switchStep_info (fcStep st m).1 m (fcStep st m).2.2 (fcWbuf st m) h
  rw [show (proc_DLSw st m).st = (switchStep (fcStep st m).1 m (fcStep st m).2.2 (fcWbuf st m)).1 from rfl,
    hsw]
  show (if (fcStep st m).1.seq_Ns + 1 = 8 then 0 else (fcStep st m).1.seq_Ns + 1) = _
  rw [hp6]

theorem C4_seqNs_aux (msgs : List (List Nat)) (st : DLSwState)
    (h8 : st.seq_Ns < 8) (hall : ∀ m ∈ msgs, getB m 14 = 0x0A) :
    (runMsgs st msgs).1.seq_Ns = (st.seq_Ns + msgs.length) % 8 := by
  induction msgs generalizing st with
  | nil =>
    rw [runMsgs_nil]
    simp [Nat.mod_eq_of_lt h8]
  | cons m ms ih =>
    have hstep := proc_step_seq st m (hall m (List.mem_cons_self m ms))
    have h8' : (proc_DLSw st m).st.seq_Ns < 8 := by
      rw [hstep]
      split <;> omega
    have ihh := ih (proc_DLSw st m).st h8' (fun x hx => hall x (List.mem_cons_of_mem m hx))
    rw [runMsgs_cons]
    show (runMsgs (proc_DLSw st m).st ms).1.seq_Ns = _
    rw [ihh, hstep, List.length_cons]
    split <;> omega

/-- C4: starting from seq_Ns = 0 (initialization or a SNRM reset), after
proc_DLSw has processed m INFOFRAME messages, each of which injects one
SDLC I-frame downstream, seq_Ns equals m mod 8; in particular it wraps
from 7 to 0 on the 8th increment. -/
theorem C4_seqNs (st : DLSwState) (msgs : List (List Nat))
    (h0 : st.seq_Ns = 0) (hall : ∀ m ∈ msgs, getB m 14 = 0x0A) :
    (runMsgs st msgs).1.seq_Ns = msgs.length % 8 := by
  have haux := C4_seqNs_aux msgs st (by omega) hall
  rw [haux, h0, Nat.zero_add]

theorem C4_seqNs_witness :
    (runMsgs stC3 (List.replicate 8 infoMsg10)).1.seq_Ns =
      (List.replicate 8 infoMsg10).length % 8 :=
  C4_seqNs stC3 (List.replicate 8 infoMsg10) rfl (by decide)

/-- C3: when proc_DLSw processes an INFOFRAME message (type 0x0A, header
length 16) of message length 10 while the circuit state is CONNECTED (6)
and seq_Ns = seq_Nr = 0, the SDLC transmit buffer afterwards contains,
appended after its previous content and the internal 2-byte length prefix
0x00 0x10, exactly the frame bytes 7E C1 ctrl, the 10 payload bytes copied
verbatim from the DLSw message body, and 47 0F 7E, where the control byte
is 0x10, carrying Ns = 0 in bits 1..3 and Nr = 0 in the high 3 bits; after
processing, seq_Ns equals 1. -/
theorem C3_iframe_tunnel (st : DLSwState) (rbuf : List Nat)
    (hmt : getB rbuf 14 = 0x0A) (hhl : getB rbuf 1 = 16)
    (hml : msgLen rbuf = 10) (hst : st.state = 6)
    (hns : st.seq_Ns = 0) (hnr : st.seq_Nr = 0) :
    (proc_DLSw st rbuf).st.SDLC_wbuf =
      st.SDLC_wbuf ++ [0x00, 0x10]
        ++ ([0x7E, 0xC1, 0x10] ++ extB rbuf 16 10 ++ [0x47, 0x0F, 0x7E]) ∧
    (proc_DLSw st rbuf).st.seq_Ns = 1 ∧
    (0x10 >>> 1) &&& 0x07 = 0 ∧ (0x10 >>> 5) &&& 0x07 = 0 := by
  obtain ⟨hp1, hp2, hp3, hp4, hp5, hp6, hp7, hp8⟩ := fcStep_pres st rbuf
  have hsw := switchStep_info (fcStep st rbuf).1 rbuf (fcStep st rbuf).2.2 (fcWbuf st rbuf) hmt
  have hproc : (proc_DLSw st rbuf).st =
      (switchStep (fcStep st rbuf).1 rbuf (fcStep st rbuf).2.2 (fcWbuf st rbuf)).1 := rfl
  refine ⟨?_, ?_, by decide, by decide⟩
  · rw [hproc, hsw]
    show (fcStep st rbuf).1.SDLC_wbuf
        ++ sdlcIFrame rbuf (fcStep st rbuf).1.seq_Ns (fcStep st rbuf).1.seq_Nr = _
    rw [hp8, hp6, hp7, hns, hnr]
    unfold sdlcIFrame
    rw [hml, hhl]
    simp
    decide
  · rw [hproc, hsw]
    show (if (fcStep st rbuf).1.seq_Ns + 1 = 8 then 0 else (fcStep st rbuf).1.seq_Ns + 1) = 1
    rw [hp6, hns]
    decide

theorem C3_iframe_tunnel_witness :
    (proc_DLSw stC3 infoMsg10).st.SDLC_wbuf =
      stC3.SDLC_wbuf ++ [0x00, 0x10]
        ++ ([0x7E, 0xC1, 0x10] ++ extB infoMsg10 16 10 ++ [0x47, 0x0F, 0x7E]) ∧
    (proc_DLSw stC3 infoMsg10).st.seq_Ns = 1 ∧
    (0x10 >>> 1) &&& 0x07 = 0 ∧ (0x10 >>> 5) &&& 0x07 = 0 :=
  C3_iframe_tunnel stC3 infoMsg10 rfl rfl rfl rfl rfl rfl

theorem getB_replyCore (b e1 e2 : List Nat) (hb : b.length = 72)
    (h1 : e1.length = 4) (h2 : e2.length = 4) :
    (∀ i, i < 4 ∨ 12 ≤ i → getB (blit (blit b 4 e1) 8 e2) i = getB b i) ∧
    (blit (blit b 4 e1) 8 e2).length = 72 ∧
    (∀ j, j < 4 → getB (blit (blit b 4 e1) 8 e2) (4 + j) = getB e1 j) ∧
    (∀ j, j < 4 → getB (blit (blit b 4 e1) 8 e2) (8 + j) = getB e2 j) := by
  have hib : (blit b 4 e1).length = 72 := (blit_length b e1 4 (by omega)).trans hb
  have hob : (blit (blit b 4 e1) 8 e2).length = 72 :=
    (blit_length (blit b 4 e1) e2 8 (by omega)).trans hib
  refine ⟨?_, hob, ?_, ?_⟩
  · intro i hi
    rcases hi with hi | hi
    · rw [getB_blit_lt (blit b 4 e1) e2 8 i (by omega) (by omega),
        getB_blit_lt b e1 4 i hi (by omega)]
    · rw [getB_blit_ge (blit b 4 e1) e2 8 i (by omega) (by omega),
        getB_blit_ge b e1 4 i (by omega) (by omega)]
  · intro j hj
    rw [getB_blit_lt (blit b 4 e1) e2 8 (4 + j) (by omega) (by omega),
      getB_blit_mem b e1 4 (4 + j) (by omega) (by omega) (by omega)]
    simp
  · intro j hj
    rw [getB_blit_mem (blit b 4 e1) e2 8 (8 + j) (by omega) (by omega) (by omega)]
    simp

/-- C6: processing one HALT_DL message (type 0x0E, 72-byte control header)
in any circuit state produces exactly one DL_HALTED response: a header-only
reply (message length field zero, length 72) with message type DL_HALTED
(0x0F) and direction DIR_ORG (0x02), the origin correlator and origin port
id copied to the remote fields, and it clears RTS exactly once by sending
exactly the one byte 0xF7 (RTS bit 0x08 low) on the RS232 signal channel;
the circuit state variable is not changed. -/
theorem C6_halt_dl (st : DLSwState) (rbuf : List Nat)
    (hmt : getB rbuf 14 = 0x0E) (hhl : getB rbuf 1 = 72) (hL : 72 ≤ rbuf.length) :
    (proc_DLSw st rbuf).st.state = st.state ∧
    (proc_DLSw st rbuf).sig = [0xF7] ∧ 0xF7 &&& 0x08 = 0 ∧
    (proc_DLSw st rbuf).reply = haltReply rbuf ∧
    (haltReply rbuf).length = 72 ∧
    getB (haltReply rbuf) 14 = 0x0F ∧
    getB (haltReply rbuf) 38 = 0x02 ∧
    getB (haltReply rbuf) 2 = 0x00 ∧ getB (haltReply rbuf) 3 = 0x00 ∧
    (∀ i, i < 4 → getB (haltReply rbuf) (4 + i) = getB rbuf (48 + i)) ∧
    (∀ i, i < 4 → getB (haltReply rbuf) (8 + i) = getB rbuf (44 + i)) := by
  obtain ⟨hp1, hp2, hp3, hp4, hp5, hp6, hp7, hp8⟩ := fcStep_pres st rbuf
  have hsw := switchStep_halt (fcStep st rbuf).1 rbuf (fcStep st rbuf).2.2 (fcWbuf st rbuf) hmt
  have hexp : haltReply rbuf =
      blit (blit (((((rbuf.take 72).set 2 0x00).set 3 0x00).set 14 0x0F).set 38 0x02)
        4 (extB rbuf 48 4)) 8 (extB rbuf 44 4) := by
    unfold haltReply
    rw [hhl]
  have he1 : (extB rbuf 48 4).length = 4 := extB_length rbuf 48 4 (by omega)
  have he2 : (extB rbuf 44 4).length = 4 := extB_length rbuf 44 4 (by omega)
  have hb : (((((rbuf.take 72).set 2 0x00).set 3 0x00).set 14 0x0F).set 38 0x02).length = 72 := by
    simp
    omega
  obtain ⟨hout, hlen, hmid1, hmid2⟩ :=
    getB_replyCore (((((rbuf.take 72).set 2 0x00).set 3 0x00).set 14 0x0F).set 38 0x02)
      (extB rbuf 48 4) (extB rbuf 44 4) hb he1 he2
  have hl2 : ((rbuf.take 72).set 2 0x00).length = 72 := by simp; omega
  have hl3 : (((rbuf.take 72).set 2 0x00).set 3 0x00).length = 72 := by simp; omega
  have hl14 : ((((rbuf.take 72).set 2 0x00).set 3 0x00).set 14 0x0F).length = 72 := by simp; omega
  refine ⟨?_, ?_, by decide, ?_, ?_, ?_, ?_, ?_, ?_, ?_, ?_⟩
  · rw [show (proc_DLSw st rbuf).st = (switchStep (fcStep st rbuf).1 rbuf (fcStep st rbuf).2.2 (fcWbuf st rbuf)).1
      from rfl, hsw]
    exact hp1
  · rw [show (proc_DLSw st rbuf).sig = (switchStep (fcStep st rbuf).1 rbuf (fcStep st rbuf).2.2 (fcWbuf st rbuf)).2.2
      from rfl, hsw]
  · rw [show (proc_DLSw st rbuf).reply = (switchStep (fcStep st rbuf).1 rbuf (fcStep st rbuf).2.2 (fcWbuf st rbuf)).2.1
      from rfl, hsw]
  · rw [hexp]
    exact hlen
  · rw [hexp, hout 14 (Or.inr (by omega)),
      getB_set_ne _ 38 14 _ (by omega), getB_set_eq _ 14 0x0F (by omega)]
  · rw [hexp, hout 38 (Or.inr (by omega)), getB_set_eq _ 38 0x02 (by omega)]
  · rw [hexp, hout 2 (Or.inl (by omega)),
      getB_set_ne _ 38 2 _ (by omega), getB_set_ne _ 14 2 _ (by omega),
      getB_set_ne _ 3 2 _ (by omega), getB_set_eq _ 2 0x00 (by simp; omega)]
  · rw [hexp, hout 3 (Or.inl (by omega)),
      getB_set_ne _ 38 3 _ (by omega), getB_set_ne _ 14 3 _ (by omega),
      getB_set_eq _ 3 0x00 (by omega)]
  · intro i hi
    rw [hexp, hmid1 i hi, getB_extB rbuf 48 4 i hi]
  · intro i hi
    rw [hexp, hmid2 i hi, getB_extB rbuf 44 4 i hi]

theorem C6_halt_dl_witness :
    (proc_DLSw stFC4 haltMsgW).st.state = stFC4.state ∧
    (proc_DLSw stFC4 haltMsgW).sig = [0xF7] ∧ 0xF7 &&& 0x08 = 0 ∧
    (proc_DLSw stFC4 haltMsgW).reply = haltReply haltMsgW ∧
    (haltReply haltMsgW).length = 72 ∧
    getB (haltReply haltMsgW) 14 = 0x0F ∧
    getB (haltReply haltMsgW) 38 = 0x02 ∧
    getB (haltReply haltMsgW) 2 = 0x00 ∧ getB (haltReply haltMsgW) 3 = 0x00 ∧
    (∀ i, i < 4 → getB (haltReply haltMsgW) (4 + i) = getB haltMsgW (48 + i)) ∧
    (∀ i, i < 4 → getB (haltReply haltMsgW) (8 + i) = getB haltMsgW (44 + i)) :=
  C6_halt_dl stFC4 haltMsgW (by decide) (by decide) (by decide)

/-- C5: when proc_DLSw receives a CAP_EXCHANGE message (type 0x20, 72-byte
header) whose GDS id is 0x1520, it adopts the peer initial pacing window
(the two bytes at offsets 87 and 88, following the CAP_IPW subfield) into
fc_init_window_size, initializes fc_current_window, rp_granted_units and
lp_granted_units to that value, clears fca_owed, and returns a reply that
is the 72-byte control header followed by the body 0x00 0x04 0x15 0x21,
with message length field 4, message type CAP_EXCHANGE (0x20) and
direction DIR_TGT (0x01); the circuit state variable is left unchanged. -/
theorem C5_cap_exchange (st : DLSwState) (rbuf : List Nat)
    (hmt : getB rbuf 14 = 0x20) (hhl : getB rbuf 1 = 72)
    (hg2 : getB rbuf 74 = 0x15) (hg3 : getB rbuf 75 = 0x20) :
    (proc_DLSw st rbuf).st.fc_init_window_size = capWindow rbuf ∧
    (proc_DLSw st rbuf).st.fc_current_window = capWindow rbuf ∧
    (proc_DLSw st rbuf).st.rp_granted_units = capWindow rbuf ∧
    (proc_DLSw st rbuf).st.lp_granted_units = capWindow rbuf ∧
    capWindow rbuf = Int.ofNat ((getB rbuf 87) <<< 8 + getB rbuf 88) ∧
    (proc_DLSw st rbuf).st.fca_owed = false ∧
    (proc_DLSw st rbuf).st.state = st.state ∧
    (proc_DLSw st rbuf).reply = capReply ∧
    capReply =
      ((((CONTROL_MSG_Hdr.set 14 0x20).set 38 0x01).set 2 0x00).set 3 0x04)
        ++ [0x00, 0x04, 0x15, 0x21] ∧
    getB capReply 2 = 0x00 ∧ getB capReply 3 = 0x04 ∧
    getB capReply 14 = 0x20 ∧ getB capReply 38 = 0x01 ∧
    capReply.length = 76 := by
  obtain ⟨hp1, hp2, hp3, hp4, hp5, hp6, hp7, hp8⟩ := fcStep_pres st rbuf
  have hg : (getB rbuf (getB rbuf 1 + 2)) <<< 8 ||| getB rbuf (getB rbuf 1 + 3) = 0x1520 := by
    rw [hhl]
    show getB rbuf 74 <<< 8 ||| getB rbuf 75 = 0x1520
    rw [hg2, hg3]
    decide
  have hsw := switchStep_cap (fcStep st rbuf).1 rbuf (fcStep st rbuf).2.2 (fcWbuf st rbuf) hmt hg
  have hst : (proc_DLSw st rbuf).st =
      (switchStep (fcStep st rbuf).1 rbuf (fcStep st rbuf).2.2 (fcWbuf st rbuf)).1 := rfl
  refine ⟨?_, ?_, ?_, ?_, ?_, ?_, ?_, ?_, by decide, by decide, by decide, by decide,
    by decide, by decide⟩
  · rw [hst, hsw]
  · rw [hst, hsw]
  · rw [hst, hsw]
  · rw [hst, hsw]
  · unfold capWindow
    rw [hhl]
  · rw [hst, hsw]
  · rw [hst, hsw]
    exact hp1
  · rw [show (proc_DLSw st rbuf).reply =
      (switchStep (fcStep st rbuf).1 rbuf (fcStep st rbuf).2.2 (fcWbuf st rbuf)).2.1 from rfl, hsw]

theorem C5_cap_exchange_witness :
    (proc_DLSw stFC4 capMsg4).st.fc_init_window_size = capWindow capMsg4 ∧
    (proc_DLSw stFC4 capMsg4).st.fc_current_window = capWindow capMsg4 ∧
    (proc_DLSw stFC4 capMsg4).st.rp_granted_units = capWindow capMsg4 ∧
    (proc_DLSw stFC4 capMsg4).st.lp_granted_units = capWindow capMsg4 ∧
    capWindow capMsg4 = Int.ofNat ((getB capMsg4 87) <<< 8 + getB capMsg4 88) ∧
    (proc_DLSw stFC4 capMsg4).st.fca_owed = false ∧
    (proc_DLSw stFC4 capMsg4).st.state = stFC4.state ∧
    (proc_DLSw stFC4 capMsg4).reply = capReply ∧
    capReply =
      ((((CONTROL_MSG_Hdr.set 14 0x20).set 38 0x01).set 2 0x00).set 3 0x04)
        ++ [0x00, 0x04, 0x15, 0x21] ∧
    getB capReply 2 = 0x00 ∧ getB capReply 3 = 0x04 ∧
    getB capReply 14 = 0x20 ∧ getB capReply 38 = 0x01 ∧
    capReply.length = 76 :=
  C5_cap_exchange stFC4 capMsg4 (by decide) (by decide) (by decide) (by decide)

theorem proc_LIBtdata_flush (c state : Nat) (L : LibLine) (hsync : L.sync = true)
    (hstate : state = 0xC ∨ state = 0xD) (hs8 : state ≠ 0x8) :
    proc_LIBtdata c state L =
      { L with sync := false, sent := L.sent ++ [L.tbuf], tbuf := [] } := by
  unfold proc_LIBtdata
  split_ifs <;> first
    | rfl
    | exact absurd (And.intro hsync hstate) (by assumption)
    | simp_all

/-- C7 (amended): for every line entering PCF C after transmitting (PCF
changed to C, LIBsync set, transmit buffer non-empty, SDLC or BSC line
code), the dispatch flushes the accumulated transmit buffer to the data
channel as one complete frame, resets the transmit length to zero, clears
LIBsync and sets lne_stat to RX; entry into PCF D performs no flush (see
the counterexample). -/
theorem C7_flush_on_C (v : Bool) (lvl : Nat) (s : ScanLine)
    (hpcf : s.pcf = 0xC) (hfirst : s.pcf_prev ≠ 0xC)
    (hlcd : s.lcd = 0xC ∨ s.lcd = 0x9)
    (hsync : s.lib.sync = true) (hne : s.lib.tbuf ≠ []) :
    (dispatch v lvl s).lib.sent = s.lib.sent ++ [s.lib.tbuf] ∧
    (dispatch v lvl s).lib.tbuf = [] ∧
    (dispatch v lvl s).lib.sync = false ∧
    (dispatch v lvl s).lne_stat = LneStat.RX := by
  unfold dispatch
  have n0 : ¬(s.pcf = 0x0) := by rw [hpcf]; decide
  have n1 : ¬(s.pcf = 0x1) := by rw [hpcf]; decide
  have n2 : ¬(s.pcf = 0x2) := by rw [hpcf]; decide
  have n3 : ¬(s.pcf = 0x3) := by rw [hpcf]; decide
  have n45 : ¬(s.pcf = 0x4 ∨ s.pcf = 0x5) := by rw [hpcf]; decide
  have n6 : ¬(s.pcf = 0x6) := by rw [hpcf]; decide
  have n7 : ¬(s.pcf = 0x7) := by rw [hpcf]; decide
  have n8 : ¬(s.pcf = 0x8) := by rw [hpcf]; decide
  have n9 : ¬(s.pcf = 0x9) := by rw [hpcf]; decide
  have nA : ¬(s.pcf = 0xA) := by rw [hpcf]; decide
  have hfe : ¬(s.pcf_prev = s.pcf) := by
    intro hh
    rw [hpcf] at hh
    exact hfirst hh
  rw [if_neg n0, if_neg n1, if_neg n2, if_neg n3, if_neg n45, if_neg n6, if_neg n7,
    if_neg n8, if_neg n9, if_neg nA, if_pos hpcf]
  rcases hlcd with h | h
  · rw [if_pos h, if_pos hfe,
      proc_LIBtdata_flush s.pdf 0xC s.lib hsync (Or.inl rfl) (by decide)]
    exact ⟨rfl, rfl, rfl, rfl⟩
  · have hn : ¬(s.lcd = 0xC) := by rw [h]; decide
    rw [if_neg hn, if_pos h, if_pos hfe,
      proc_LIBtdata_flush s.transmitChar 0xC s.lib hsync (Or.inl rfl) (by decide)]
    exact ⟨rfl, rfl, rfl, rfl⟩

theorem C7_flush_on_C_witness :
    (dispatch false 0 sC).lib.sent = sC.lib.sent ++ [sC.lib.tbuf] ∧
    (dispatch false 0 sC).lib.tbuf = [] ∧
    (dispatch false 0 sC).lib.sync = false ∧
    (dispatch false 0 sC).lne_stat = LneStat.RX :=
  C7_flush_on_C false 0 sC rfl (by decide) (Or.inr rfl) rfl (by decide)

/-- C7 (counterexample to the claim as stated): an SDLC line entering PCF D
after transmitting (LIBsync set, three bytes accumulated) performs no
flush: no frame is sent, the transmit buffer and LIBsync are untouched,
and lne_stat does not become RX. -/
theorem C7_counterexample :
    (dispatch false 0 sD).lib.sent = [] ∧
    (dispatch false 0 sD).lib.tbuf = [0x01, 0x02, 0x03] ∧
    (dispatch false 0 sD).lib.sync = true ∧
    (dispatch false 0 sD).lne_stat ≠ LneStat.RX := by decide

/-- C8 (amended): whenever svc_req_L2 is ON, a scan cycle dispatched in any
of the PCF states 6, 7, 8, 9 or A leaves the line state completely
unchanged (no byte read or written, no ICW field modified, no service
request raised); PCF D is not so guarded: its BSC path writes pcf_next and
raises a request even while svc_req_L2 is ON (see the counterexample). -/
theorem C8_suspend_guard (lvl : Nat) (s : ScanLine)
    (hpcf : s.pcf = 0x6 ∨ s.pcf = 0x7 ∨ s.pcf = 0x8 ∨ s.pcf = 0x9 ∨ s.pcf = 0xA) :
    dispatch true lvl s = s := by
  unfold dispatch
  have n0 : ¬(s.pcf = 0x0) := by rcases hpcf with h | h | h | h | h <;> rw [h] <;> decide
  have n1 : ¬(s.pcf = 0x1) := by rcases hpcf with h | h | h | h | h <;> rw [h] <;> decide
  have n2 : ¬(s.pcf = 0x2) := by rcases hpcf with h | h | h | h | h <;> rw [h] <;> decide
  have n3 : ¬(s.pcf = 0x3) := by rcases hpcf with h | h | h | h | h <;> rw [h] <;> decide
  have n45 : ¬(s.pcf = 0x4 ∨ s.pcf = 0x5) := by
    rcases hpcf with h | h | h | h | h <;> rw [h] <;> decide
  rw [if_neg n0, if_neg n1, if_neg n2, if_neg n3, if_neg n45]
  rcases hpcf with h | h | h | h | h
  · rw [if_pos h, if_pos (Or.inl rfl)]
  · have n6 : ¬(s.pcf = 0x6) := by rw [h]; decide
    rw [if_neg n6, if_pos h, if_pos (Or.inl rfl)]
  · have n6 : ¬(s.pcf = 0x6) := by rw [h]; decide
    have n7 : ¬(s.pcf = 0x7) := by rw [h]; decide
    rw [if_neg n6, if_neg n7, if_pos h, if_pos (Or.inl rfl)]
  · have n6 : ¬(s.pcf = 0x6) := by rw [h]; decide
    have n7 : ¬(s.pcf = 0x7) := by rw [h]; decide
    have n8 : ¬(s.pcf = 0x8) := by rw [h]; decide
    rw [if_neg n6, if_neg n7, if_neg n8, if_pos h, if_pos (Or.inl rfl)]
  · have n6 : ¬(s.pcf = 0x6) := by rw [h]; decide
    have n7 : ¬(s.pcf = 0x7) := by rw [h]; decide
    have n8 : ¬(s.pcf = 0x8) := by rw [h]; decide
    have n9 : ¬(s.pcf = 0x9) := by rw [h]; decide
    rw [if_neg n6, if_neg n7, if_neg n8, if_neg n9, if_pos h, if_pos (Or.inl rfl)]

theorem C8_suspend_guard_witness : dispatch true 0 s6 = s6 :=
  C8_suspend_guard 0 s6 (Or.inl rfl)

/-- C8 (counterexample to the claim as stated): a BSC line sitting in PCF D
is dispatched while svc_req_L2 is ON and still performs work: it writes
pcf_next = 5 and raises a new level-2 service request, so the state is not
left unchanged. -/
theorem C8_counterexample :
    dispatch true 0 sDB ≠ sDB ∧
    (dispatch true 0 sDB).pcf_nxt = 0x5 ∧
    (dispatch true 0 sDB).l2req = true ∧
    sDB.pcf_nxt = 0xD ∧ sDB.l2req = false := by decide

/-- C9 (amended): at LIB_thread initialization the local RS232 signal byte
of every line is 0 (all six signal bits low), and on a detected connection
loss ReadLIB and ReadSig clear exactly DCD, DSR and RI (mask 0x70), so
those three bits are low afterwards, while CTS, RTS and DTR keep their
previous values (see the counterexample for a surviving DTR bit). -/
theorem C9_signals_after_loss (s : Nat) (h : s < 256) :
    RS232_init = 0 ∧ dropLineSignals s &&& 0x70 = 0 := by
  refine ⟨rfl, ?_⟩
  revert s
  decide

theorem C9_signals_after_loss_witness :
    RS232_init = 0 ∧ dropLineSignals 0xFF &&& 0x70 = 0 :=
  C9_signals_after_loss 0xFF (by decide)

/-- C9 (counterexample to the claim as stated): a line whose signals are
DCD, RI, DSR and DTR (byte 0x74) and whose data connection has just died
ends up, after ReadLIB closes the connection, with no data connection but
signal byte 0x04 (DTR still high), not 0. -/
theorem C9_counterexample :
    L74.hasData = true ∧ (ReadLIB L74).hasData = false ∧
    (ReadLIB L74).sig = 0x04 ∧ (ReadLIB L74).sig ≠ 0 := by decide

/-- C10: for every line with a non-empty receive buffer, proc_LIBrdata in
scanner state 4 or 5 returns the first buffered byte without consuming it
(return code 1, line state unchanged, so an immediately following call
returns the same byte), whereas in any other state it removes exactly the
first byte by shifting the buffer left, returning 2 when the buffer
becomes empty on that call and 1 when bytes remain; with an empty buffer
and no pending data the return code is 0. -/
theorem C10_rdata (state : Nat) (L : LibLine) (hne : ¬(L.rbuf = [])) :
    ((state = 0x4 ∨ state = 0x5) →
      proc_LIBrdata state L = (1, some (getB L.rbuf 0), L)) ∧
    (¬(state = 0x4 ∨ state = 0x5) →
      proc_LIBrdata state L =
        ((if L.rbuf.tail = [] then 2 else 1), some (getB L.rbuf 0),
         { L with rbuf := L.rbuf.tail })) ∧
    (proc_LIBrdata state { L with rbuf := [], pending := [] }).1 = 0 := by
  refine ⟨?_, ?_, ?_⟩
  · intro h45
    unfold proc_LIBrdata
    rw [if_neg hne, if_neg hne, if_neg (not_not_intro h45), if_neg hne]
  · intro h45
    unfold proc_LIBrdata ShiftLeftBuf
    rw [if_neg hne, if_neg hne, if_pos h45]
    by_cases ht : L.rbuf.tail = []
    · rw [if_pos ht, if_pos ht]
    · rw [if_neg ht, if_neg ht]
  · unfold proc_LIBrdata ReadLIB
    split_ifs <;> rfl

theorem C10_rdata_witness :
    proc_LIBrdata 0x6 L1 = (2, some 0x05, { L1 with rbuf := [] }) :=
  ((C10_rdata 0x6 L1 (by decide)).2.1 (by decide)).trans (by decide)
